import Mathlib

/-!
Verification of the resumable-operation async I/O core (`io.hpp` / `io.cpp`).

The OS (Winsock, IOCP) is modelled as an oracle environment `OsEnv`: each
OS entry point the code calls is a function field whose result the code then
classifies exactly as the source does.  Machine `DWORD`s are modelled as
`Nat` (only equality against distinguished codes matters to the code).
Contexts are records; a primitive is a pure function from the oracle and its
arguments to `Bool × context`, mirroring the source's in-place mutation by
returning the updated record.
-/

namespace AsyncIo

/-- Constant `ERROR_SUCCESS` (0), the success code. -/
def ERROR_SUCCESS : Nat := 0

/-- Constant `ERROR_IO_PENDING` / `WSA_IO_PENDING` (997), the pending classification code. -/
def ERROR_IO_PENDING : Nat := 997

/-- Constant `TF_REUSE_SOCKET`, the flag passed to `DisconnectEx` when `reuse` is set. -/
def TF_REUSE_SOCKET : Nat := 2

/-- Completion key used for real I/O completions (`KEY_RUN = 0` in io.cpp). -/
def KEY_RUN : Nat := 0

/-- Completion key used for the shutdown sentinel (`KEY_SHUTDOWN = 1` in io.cpp). -/
def KEY_SHUTDOWN : Nat := 1

/-- A `WSABUF`: abstract buffer pointer and length. -/
structure WSABUF where
  buf : Nat
  len : Nat
deriving DecidableEq, Repr

/-- The `socket_context` data of io.hpp: the `op_context` error field plus the
socket, transferred-byte count and flags recorded by `socket_context`.
The inherited `OVERLAPPED` block is OS bookkeeping carrying no program-visible
data, so it is not modelled; `init(sock)` therefore just records the socket. -/
structure socket_context where
  m_sock : Nat
  m_error : Nat
  m_transferred : Nat
  m_flags : Nat
deriving DecidableEq, Repr

/-- Model of `socket_context::init(SOCKET)`: zeroes the `OVERLAPPED` base (not modelled)
and records the socket handle; it does not touch error/transferred/flags. -/
def socket_context.init (ctx : socket_context) (sock : Nat) : socket_context :=
  { ctx with m_sock := sock }

/-- Model of `op_context::check_error()`: raises `winsock_error(m_error)` iff the stored
outcome is not `ERROR_SUCCESS`.  Raising is modelled with `Except`. -/
def socket_context.check_error (ctx : socket_context) : Except Nat Unit :=
  if ctx.m_error ≠ ERROR_SUCCESS then Except.error ctx.m_error else Except.ok ()

/-- Result of the `WSAIoctl(SIO_GET_EXTENSION_FUNCTION_POINTER, ...)` lookup of
an extension function (`AcceptEx` / `ConnectEx` / `DisconnectEx`):
either the pointer resolved, or the lookup failed with `WSAGetLastError() = err`. -/
inductive ExtRes where
  | resolved
  | unresolved (err : Nat)
deriving DecidableEq, Repr

/-- Result of one overlapped OS call as the source observes it: the call
reported immediate success (writing `transferred`, and for `WSARecv` the
updated `flags`, through its out-parameters), or it returned failure with
`WSAGetLastError() = err` (`err = ERROR_IO_PENDING` meaning the operation was
accepted and is pending; out-parameters are not written in that case). -/
inductive CallRes where
  | success (transferred flags : Nat)
  | failedWith (err : Nat)
deriving DecidableEq, Repr

/-- The OS oracle: one field per OS entry point the primitives call, as a
function of exactly the arguments the source passes. -/
structure OsEnv where
  acceptExPtr : ExtRes
  connectExPtr : ExtRes
  disconnectExPtr : ExtRes
  acceptEx : Nat → Nat → Nat → Nat → Nat → Nat → CallRes
  connectEx : Nat → Nat → Nat → Nat → Nat → CallRes
  wsaSend : Nat → List WSABUF → Nat → CallRes
  wsaRecv : Nat → List WSABUF → Nat → CallRes
  disconnectEx : Nat → Nat → CallRes
  getAddrInfoEx : Nat → Nat → Nat

/-- Model of `io::socket::accept_and_receive` (io.cpp:139-170): look up `AcceptEx`;
on lookup failure populate an error outcome (transferred forced to 0) and
return true; otherwise issue the call on the freshly `init`-ed context and
classify success / pending / immediate failure. -/
def socket.accept_and_receive (env : OsEnv) (m_sock accSock buffer receive_len local_len remote_len : Nat)
    (ctx : socket_context) : Bool × socket_context :=
  match env.acceptExPtr with
  | ExtRes.unresolved err =>
      (true, { ctx with m_error := err, m_transferred := 0, m_flags := 0 })
  | ExtRes.resolved =>
      let ctx1 := ctx.init m_sock
      match env.acceptEx m_sock accSock buffer receive_len local_len remote_len with
      | CallRes.success t _ =>
          (true, { ctx1 with m_error := ERROR_SUCCESS, m_transferred := t, m_flags := 0 })
      | CallRes.failedWith err =>
          if err = ERROR_IO_PENDING then (false, ctx1)
          else (true, { ctx1 with m_error := err, m_flags := 0 })

/-- Model of `io::socket::connect_and_send` (io.cpp:177-208): look up `ConnectEx`;
on lookup failure populate an error outcome and return true; otherwise issue
the call and classify success / pending / immediate failure. -/
def socket.connect_and_send (env : OsEnv) (m_sock name name_len buffer buffer_len : Nat)
    (ctx : socket_context) : Bool × socket_context :=
  match env.connectExPtr with
  | ExtRes.unresolved err =>
      (true, { ctx with m_error := err, m_transferred := 0, m_flags := 0 })
  | ExtRes.resolved =>
      let ctx1 := ctx.init m_sock
      match env.connectEx m_sock name name_len buffer buffer_len with
      | CallRes.success t _ =>
          (true, { ctx1 with m_error := ERROR_SUCCESS, m_transferred := t, m_flags := 0 })
      | CallRes.failedWith err =>
          if err = ERROR_IO_PENDING then (false, ctx1)
          else (true, { ctx1 with m_error := err, m_flags := 0 })

/-- Model of `io::socket::connect` (io.cpp:172-175): delegates to `connect_and_send`
with a null buffer (modelled as pointer 0) of length 0. -/
def socket.connect (env : OsEnv) (m_sock name name_len : Nat) (ctx : socket_context) :
    Bool × socket_context :=
  socket.connect_and_send env m_sock name name_len 0 0 ctx

/-- Model of `io::socket::send(WSABUF const*, int, ...)` (io.cpp:230-249): issue
`WSASend` on the `init`-ed context and classify the result. -/
def socket.send_bufs (env : OsEnv) (m_sock : Nat) (buffers : List WSABUF) (flags : Nat)
    (ctx : socket_context) : Bool × socket_context :=
  let ctx1 := ctx.init m_sock
  match env.wsaSend m_sock buffers flags with
  | CallRes.success t _ =>
      (true, { ctx1 with m_error := ERROR_SUCCESS, m_transferred := t, m_flags := 0 })
  | CallRes.failedWith err =>
      if err = ERROR_IO_PENDING then (false, ctx1)
      else (true, { ctx1 with m_error := err, m_flags := 0 })

/-- Model of `io::socket::send(void const*, int, ...)` (io.cpp:221-228): wraps the
buffer in a single `WSABUF` and delegates to the multi-buffer overload. -/
def socket.send (env : OsEnv) (m_sock buffer buffer_len flags : Nat) (ctx : socket_context) :
    Bool × socket_context :=
  let buf : WSABUF := { buf := buffer, len := buffer_len }
  socket.send_bufs env m_sock [buf] flags ctx

/-- Model of `io::socket::receive(WSABUF const*, int, ...)` (io.cpp:260-279): issue
`WSARecv`; on immediate success the (possibly updated) in-out flags word is
stored into `m_flags`. -/
def socket.receive_bufs (env : OsEnv) (m_sock : Nat) (buffers : List WSABUF) (flags : Nat)
    (ctx : socket_context) : Bool × socket_context :=
  let ctx1 := ctx.init m_sock
  match env.wsaRecv m_sock buffers flags with
  | CallRes.success t f =>
      (true, { ctx1 with m_error := ERROR_SUCCESS, m_transferred := t, m_flags := f })
  | CallRes.failedWith err =>
      if err = ERROR_IO_PENDING then (false, ctx1)
      else (true, { ctx1 with m_error := err, m_flags := 0 })

/-- Model of `io::socket::receive(void*, int, ...)` (io.cpp:251-258): wraps the buffer
in a single `WSABUF` and delegates to the multi-buffer overload. -/
def socket.receive (env : OsEnv) (m_sock buffer buffer_len flags : Nat) (ctx : socket_context) :
    Bool × socket_context :=
  let buf : WSABUF := { buf := buffer, len := buffer_len }
  socket.receive_bufs env m_sock [buf] flags ctx

/-- Model of `io::socket::disconnect` (io.cpp:289-320): look up `DisconnectEx`; on
lookup failure populate an error outcome and return true; otherwise issue the
call (`TF_REUSE_SOCKET` iff `reuse`).  Note `DisconnectEx` has no
transferred-bytes out-parameter, and the success branch of the source writes
only `m_error` and `m_flags`. -/
def socket.disconnect (env : OsEnv) (m_sock : Nat) (reuse : Bool) (ctx : socket_context) :
    Bool × socket_context :=
  match env.disconnectExPtr with
  | ExtRes.unresolved err =>
      (true, { ctx with m_error := err, m_transferred := 0, m_flags := 0 })
  | ExtRes.resolved =>
      let ctx1 := ctx.init m_sock
      match env.disconnectEx m_sock (if reuse then TF_REUSE_SOCKET else 0) with
      | CallRes.success _ _ =>
          (true, { ctx1 with m_error := ERROR_SUCCESS, m_flags := 0 })
      | CallRes.failedWith err =>
          if err = ERROR_IO_PENDING then (false, ctx1)
          else (true, { ctx1 with m_error := err, m_flags := 0 })

/-- One entry of an `ADDRINFOEXW` candidate list, holding the fields
`resolve_and_connect_context::step` reads. -/
structure Cand where
  ai_family : Nat
  ai_socktype : Nat
  ai_protocol : Nat
  ai_addr : Nat
  ai_addrlen : Nat
deriving DecidableEq, Repr

/-- The `resolve_context` data: `op_context` error plus the completion-port
handle and the (shared) resolved candidate list; a null result is the empty
list. -/
structure resolve_context where
  m_iocp : Nat
  m_error : Nat
  m_result : List Cand
deriving DecidableEq, Repr

/-- Model of `io::resolve` via `resolve_helpers::resolve` (io.cpp:340-359): record the
service handle, call `GetAddrInfoExW` and classify its return code:
0 means synchronous success, `ERROR_IO_PENDING` means pending, anything else
is an immediate failure recorded in `m_error`. -/
def io_resolve (env : OsEnv) (svc_handle hostname servicename : Nat) (ctx : resolve_context) :
    Bool × resolve_context :=
  let ctx1 := { ctx with m_iocp := svc_handle }
  let err := env.getAddrInfoEx hostname servicename
  if err = 0 then (true, { ctx1 with m_error := ERROR_SUCCESS })
  else if err = ERROR_IO_PENDING then (false, ctx1)
  else (true, { ctx1 with m_error := err })

/-- Model of `resolve_context::lookup_completion` (io.cpp:322-334): on a successful
lookup with a non-null raw result, take shared ownership of the candidate
list; in every case record the error code.  (It then posts a `KEY_RUN`
completion for the context, which the multiplexer model dispatches.) -/
def resolve_context.lookup_completion (error : Nat) (rawres : Option (List Cand))
    (ctx : resolve_context) : resolve_context :=
  if error = ERROR_SUCCESS then
    match rawres with
    | some l => { ctx with m_error := error, m_result := l }
    | none => { ctx with m_error := error }
  else { ctx with m_error := error }

/-- Result of `WSAGetOverlappedResult` as `socket_context::completion_func`
observes it: success flag, `WSAGetLastError()` on failure, and the
transferred/flags words written through the out-parameters. -/
structure OverlappedRes where
  ok : Bool
  lastError : Nat
  transferred : Nat
  flags : Nat
deriving DecidableEq, Repr

/-- Model of `socket_context::completion_func` (io.cpp:95-98): one call to
`WSAGetOverlappedResult` populates all three outcome fields. -/
def socket_context.completion_func (r : OverlappedRes) (ctx : socket_context) : socket_context :=
  { ctx with
      m_error := if r.ok then ERROR_SUCCESS else r.lastError,
      m_transferred := r.transferred,
      m_flags := r.flags }

/-- Model of `connect_context::completion_func` (io.cpp:210-219): run the base
`socket_context` bookkeeping, then, if the connect succeeded, apply the
`SO_UPDATE_CONNECT_CONTEXT` fixup; a failing fixup (`fixup_err = some e`)
raises `winsock_error`, modelled as `Except.error e`. -/
def connect_context.completion_func (r : OverlappedRes) (fixup_err : Option Nat)
    (ctx : socket_context) : Except Nat socket_context :=
  let ctx1 := socket_context.completion_func r ctx
  if ctx1.m_error ≠ ERROR_SUCCESS then Except.ok ctx1
  else
    match fixup_err with
    | none => Except.ok ctx1
    | some e => Except.error e

/-! ## Bound contexts (`async_context<BaseContext>`, io.hpp:156-170)

`async_context<Base>::completion_func()` runs `Base::completion_func()` and
then `m_op->step()`, where `m_op` is set at construction and never written
again.  The owning operation is modelled by its state type `σ` and its step
function `σ → σ`; the hook's observable behaviour is captured by the event
list it produces, so "exactly one step invocation" is a statement about that
list. -/

/-- Observable actions of a bound context's completion hook: the base
context's own completion bookkeeping, and an invocation of the owning
operation's step function on the operation state `resume` current at dispatch
time. -/
inductive HookEvent (σ : Type) where
  | base_bookkeeping
  | step_call (resume : σ)
deriving DecidableEq, Repr

/-- Model of `async_context<BaseContext>` with its construction-time back-reference
`m_op` to the owning operation's step function. -/
structure async_context (σ : Type) where
  m_op : σ → σ

/-- Model of `async_context<connect_context>::completion_func()`: run
`connect_context::completion_func()` (which may raise), then `m_op->step()`.
If the base bookkeeping raises, the exception propagates and the step call
never happens, so no events are produced. -/
def async_context.connect_completion_func {σ : Type} (ac : async_context σ)
    (r : OverlappedRes) (fixup_err : Option Nat) (ctx : socket_context) (op : σ) :
    Except Nat (socket_context × σ × List (HookEvent σ)) :=
  match connect_context.completion_func r fixup_err ctx with
  | Except.error e => Except.error e
  | Except.ok ctx1 =>
      Except.ok (ctx1, ac.m_op op, [HookEvent.base_bookkeeping, HookEvent.step_call op])

/-- Number of step invocations recorded in a hook event list. -/
def stepCalls {σ : Type} (evs : List (HookEvent σ)) : Nat :=
  evs.countP fun e =>
    match e with
    | HookEvent.step_call _ => true
    | HookEvent.base_bookkeeping => false

/-- Number of step invocations performed by a (possibly raising) hook run. -/
def hookStepCalls {σ : Type} : Except Nat (socket_context × σ × List (HookEvent σ)) → Nat
  | Except.error _ => 0
  | Except.ok (_, _, evs) => stepCalls evs

/-! ## The completion multiplexer (`io::service`, io.cpp:45-87)

A dequeued completion packet is the data `GetQueuedCompletionStatus` hands
back: whether the wait call itself succeeded, the completion key, and the
(possibly null) `OVERLAPPED` pointer, modelled as an optional abstract
context identifier.  Dispatching a context's `completion_func` is recorded in
the returned dispatch list; a thrown `win32_error` is `Except.error`. -/

/-- One dequeued completion as `service::run` observes it. -/
structure WaitEvent where
  ok : Bool
  completion_key : Nat
  overlapped : Option Nat
deriving DecidableEq, Repr

/-- Model of `io::service::run` (io.cpp:45-59): a failed wait with no completion
attached throws; a `KEY_SHUTDOWN` packet returns false without dispatching;
otherwise the packet's context is dispatched (exactly once) and the call
returns true.  (A non-shutdown packet always carries a context in this
system; the model returns an empty dispatch list where the source would
dereference null.) -/
def service.run (ev : WaitEvent) : Except Unit (Bool × List Nat) :=
  if ev.ok = false ∧ ev.overlapped = none then Except.error ()
  else if ev.completion_key = KEY_SHUTDOWN then Except.ok (false, [])
  else Except.ok (true, ev.overlapped.toList)

/-- The sentinel completion `io::service::shutdown` (io.cpp:83-87) posts:
`PostQueuedCompletionStatus(m_iocp, 0, KEY_SHUTDOWN, nullptr)` — a successful
packet with the reserved shutdown key and no operation context. -/
def shutdown_event : WaitEvent :=
  { ok := true, completion_key := KEY_SHUTDOWN, overlapped := none }

/-- One `OVERLAPPED_ENTRY` dequeued by `GetQueuedCompletionStatusEx`.  For a
real completion `lpOverlapped` is the context; for the shutdown sentinel it
is null in the source but never read, so it is kept as plain data here. -/
structure OVERLAPPED_ENTRY where
  lpCompletionKey : Nat
  lpOverlapped : Nat
deriving DecidableEq, Repr

/-- The batch size of `service::run_many`: `OVERLAPPED_ENTRY entries[16]`. -/
def batch_limit : Nat := 16

/-- The loop body of `io::service::run_many` (io.cpp:71-78): walk the
dequeued entries in order, dispatching the context of every `KEY_RUN` entry
and clearing `keep_running` for every other entry. -/
def run_many_loop (entries : List OVERLAPPED_ENTRY) (keep_running : Bool)
    (dispatched : List Nat) : Bool × List Nat :=
  match entries with
  | [] => (keep_running, dispatched)
  | e :: rest =>
      if e.lpCompletionKey = KEY_RUN then
        run_many_loop rest keep_running (dispatched ++ [e.lpOverlapped])
      else
        run_many_loop rest false dispatched

/-- Model of `io::service::run_many` (io.cpp:61-81): a failed
`GetQueuedCompletionStatusEx` throws; otherwise process the whole dequeued
batch and return whether no shutdown entry was seen. -/
def service.run_many (wait_ok : Bool) (entries : List OVERLAPPED_ENTRY) :
    Except Unit (Bool × List Nat) :=
  if wait_ok = false then Except.error ()
  else Except.ok (run_many_loop entries true [])

/-! ## The resolve-and-connect compound operation (io.cpp:369-480)

`resolve_and_connect_context::step` is a switch-resumable function; every
suspension is later resumed by a bound context's hook re-invoking `step`,
which re-enters the switch at the state recorded just before the suspending
call, with the suspended child context now populated.  The model below runs
the operation end to end: the eventual contents of the child contexts are
oracles (`ResolveRes` for `resolve_ctx`, one `ConnRes` per attempted
candidate for `connect_ctx`), each tagged with whether the child primitive
completed synchronously.  The `sync` member starts true and is cleared at a
suspension, never set again, so after any number of resumptions it is the
conjunction of the child sync flags of the calls issued so far; the value
`connect_and_send_helpers::connect_and_send` returns (`ctx.sync` right after
the first `step`) equals the final `sync`: both are false exactly when some
child call was pending.  Socket construction and `bind` are assumed to
succeed (their failure throws out of `step`, outside every claim here). -/

/-- Observable actions of a run of the compound operation. -/
inductive Event where
  | socketCreated (family socktype protocol : Nat)
  | socketBound (family : Nat)
  | connectIssued (addr addrlen : Nat)
  | socketClosed
  | parentSignaled
deriving DecidableEq, Repr

/-- The state of `resolve_and_connect_context` the model tracks: its own
`socket_context` outcome fields plus the `sync` member. -/
structure RCCtx where
  m_error : Nat
  m_transferred : Nat
  m_flags : Nat
  sync : Bool
deriving DecidableEq, Repr

/-- Oracle for one candidate's `connect_and_send`: whether it completed
synchronously, and the eventual contents of `connect_ctx` once it has
completed (synchronously, or via `connect_context::completion_func`). -/
structure ConnRes where
  sync : Bool
  error : Nat
  transferred : Nat
  flags : Nat
deriving DecidableEq, Repr

/-- Oracle for the resolve child: whether `io::resolve` returned true, and
the eventual contents of `resolve_ctx` (error code and candidate list, the
latter empty when the raw result is null). -/
structure ResolveRes where
  sync : Bool
  error : Nat
  result : List Cand
deriving DecidableEq, Repr

/-- The candidate loop of `step` (io.cpp:399-444), from socket construction
through the `on_connect` arm, over the remaining candidates paired with
their connect oracles: construct and bind a socket for the candidate, issue
the connect (clearing `sync` if it was pending), and on completion either
record the final outcome (success, or failure on the last candidate,
signalling the parent when the operation had gone asynchronous) or close the
socket and move to the next candidate. -/
def connect_loop (ctx : RCCtx) : List (Cand × ConnRes) → RCCtx × List Event
  | [] => (ctx, [])
  | (c, r) :: rest =>
      let issued := [Event.socketCreated c.ai_family c.ai_socktype c.ai_protocol,
                     Event.socketBound c.ai_family,
                     Event.connectIssued c.ai_addr c.ai_addrlen]
      let ctx1 := if r.sync then ctx else { ctx with sync := false }
      if r.error ≠ ERROR_SUCCESS then
        match rest with
        | [] =>
            let ctx2 := { ctx1 with m_error := r.error, m_transferred := r.transferred,
                                    m_flags := r.flags }
            (ctx2, issued ++ [Event.socketClosed] ++
              (if ctx2.sync then [] else [Event.parentSignaled]))
        | rest1 =>
            let next := connect_loop ctx1 rest1
            (next.1, issued ++ [Event.socketClosed] ++ next.2)
      else
        let ctx2 := { ctx1 with m_error := ERROR_SUCCESS, m_transferred := r.transferred,
                                m_flags := r.flags }
        (ctx2, issued ++ (if ctx2.sync then [] else [Event.parentSignaled]))

/-- Model of `resolve_and_connect_context::step` run to completion from `on_start`:
issue the resolve (clearing `sync` if it was pending); on resolve failure
record it as the final outcome with zero transferred bytes and flags
(signalling the parent when asynchronous); otherwise iterate the candidate
list with `connect_loop`. -/
def resolve_and_connect_run (ctx : RCCtx) (res : ResolveRes) (conns : List ConnRes) :
    RCCtx × List Event :=
  let ctx1 := if res.sync then ctx else { ctx with sync := false }
  if res.error ≠ ERROR_SUCCESS then
    let ctx2 := { ctx1 with m_error := res.error, m_transferred := 0, m_flags := 0 }
    (ctx2, if ctx2.sync then [] else [Event.parentSignaled])
  else
    connect_loop ctx1 (res.result.zip conns)

/-- Model of `connect_and_send_helpers::connect_and_send` (io.cpp:454-469) run to
completion: set `sync = true`, run the operation, and report `ctx.sync` to
the caller (true means the whole operation completed — or fell through —
synchronously). -/
def connect_and_send_run (ctx : RCCtx) (res : ResolveRes) (conns : List ConnRes) :
    Bool × RCCtx × List Event :=
  let start := { ctx with sync := true }
  let out := resolve_and_connect_run start res conns
  (out.1.sync, out.1, out.2)

/-- OS oracle on which every extension-function lookup fails (used as a
concrete "failed to even start" environment). -/
def env_unresolved : OsEnv :=
  { acceptExPtr := ExtRes.unresolved 10022, connectExPtr := ExtRes.unresolved 10022,
    disconnectExPtr := ExtRes.unresolved 10022,
    acceptEx := fun _ _ _ _ _ _ => CallRes.failedWith 10061,
    connectEx := fun _ _ _ _ _ => CallRes.failedWith 10061,
    wsaSend := fun _ _ _ => CallRes.failedWith 10054,
    wsaRecv := fun _ _ _ => CallRes.failedWith 10054,
    disconnectEx := fun _ _ => CallRes.failedWith 10061,
    getAddrInfoEx := fun _ _ => 11001 }
/-- OS oracle on which every call fails immediately with a non-pending error
(extension lookups succeed). -/
def env_failing : OsEnv :=
  { env_unresolved with
      acceptExPtr := ExtRes.resolved, connectExPtr := ExtRes.resolved,
      disconnectExPtr := ExtRes.resolved }
/-- OS oracle on which every call reports pending. -/
def env_pending : OsEnv :=
  { acceptExPtr := ExtRes.resolved, connectExPtr := ExtRes.resolved,
    disconnectExPtr := ExtRes.resolved,
    acceptEx := fun _ _ _ _ _ _ => CallRes.failedWith ERROR_IO_PENDING,
    connectEx := fun _ _ _ _ _ => CallRes.failedWith ERROR_IO_PENDING,
    wsaSend := fun _ _ _ => CallRes.failedWith ERROR_IO_PENDING,
    wsaRecv := fun _ _ _ => CallRes.failedWith ERROR_IO_PENDING,
    disconnectEx := fun _ _ => CallRes.failedWith ERROR_IO_PENDING,
    getAddrInfoEx := fun _ _ => ERROR_IO_PENDING }
/-- OS oracle on which `DisconnectEx` succeeds immediately and everything
else is irrelevant. -/
def env_disc_ok : OsEnv :=
  { env_failing with disconnectEx := fun _ _ => CallRes.success 0 0 }

/-! ## Helper lemmas about the candidate loop -/

def failEvents (c : Cand) : List Event :=
  [Event.socketCreated c.ai_family c.ai_socktype c.ai_protocol,
   Event.socketBound c.ai_family,
   Event.connectIssued c.ai_addr c.ai_addrlen,
   Event.socketClosed]

lemma sync_update (ctx : RCCtx) (b : Bool) :
    (if b then ctx else { ctx with sync := false }) = { ctx with sync := ctx.sync && b } := by
  cases b <;> cases ctx <;> simp

lemma connect_loop_all_fail (pairs : List (Cand × ConnRes)) (ctx : RCCtx)
    (last : Cand × ConnRes)
    (hfail : ∀ p ∈ pairs, p.2.error ≠ ERROR_SUCCESS)
    (hlast : pairs.getLast? = some last) :
    connect_loop ctx pairs =
      ({ ctx with m_error := last.2.error, m_transferred := last.2.transferred,
                  m_flags := last.2.flags,
                  sync := ctx.sync && pairs.all fun p => p.2.sync },
       pairs.flatMap (fun p => failEvents p.1) ++
         (if ctx.sync && pairs.all (fun p => p.2.sync) then [] else [Event.parentSignaled])) := by
  induction pairs generalizing ctx with
  | nil => simp at hlast
  | cons hd tl ih =>
      obtain ⟨c, r⟩ := hd
      have hr : r.error ≠ ERROR_SUCCESS := hfail (c, r) (List.mem_cons_self _ _)
      cases tl with
      | nil =>
          have hl : last = (c, r) := by
            simpa using hlast.symm
          subst hl
          simp only [connect_loop, sync_update]
          rw [if_pos hr]
          simp [failEvents, List.all_cons]
      | cons hd2 tl2 =>
          have hlast2 : (hd2 :: tl2).getLast? = some last := by
            rw [← hlast]
            exact (List.getLast?_cons_cons ..).symm
          have hfail2 : ∀ p ∈ hd2 :: tl2, p.2.error ≠ ERROR_SUCCESS := by
            intro p hp
            exact hfail p (List.mem_cons_of_mem _ hp)
          simp only [connect_loop, sync_update]
          rw [if_pos hr]
          rw [ih _ hfail2 hlast2]
          simp [failEvents, List.all_cons, List.append_assoc, Bool.and_eq_true, and_assoc,
            Bool.and_assoc]
          rw [Bool.and_assoc]

lemma connect_loop_fail_front (pre : List (Cand × ConnRes)) (post : List (Cand × ConnRes))
    (ctx : RCCtx)
    (hfail : ∀ p ∈ pre, p.2.error ≠ ERROR_SUCCESS) (hpost : post ≠ []) :
    connect_loop ctx (pre ++ post) =
      ((connect_loop { ctx with sync := ctx.sync && pre.all fun p => p.2.sync } post).1,
       pre.flatMap (fun p => failEvents p.1) ++
         (connect_loop { ctx with sync := ctx.sync && pre.all fun p => p.2.sync } post).2) := by
  induction pre generalizing ctx with
  | nil => simp
  | cons hd tl ih =>
      obtain ⟨c, r⟩ := hd
      have hr : r.error ≠ ERROR_SUCCESS := hfail (c, r) (List.mem_cons_self _ _)
      have hfail2 : ∀ p ∈ tl, p.2.error ≠ ERROR_SUCCESS := by
        intro p hp
        exact hfail p (List.mem_cons_of_mem _ hp)
      have hne : tl ++ post ≠ [] := by
        simp [hpost]
      simp only [List.cons_append, connect_loop, sync_update]
      rw [if_pos hr]
      cases htl : tl ++ post with
      | nil => exact absurd htl hne
      | cons q qs =>
          rw [← htl, ih _ hfail2]
          simp [failEvents, List.all_cons, List.append_assoc, Bool.and_assoc]

lemma connect_loop_success_head (ctx : RCCtx) (c : Cand) (r : ConnRes)
    (rest : List (Cand × ConnRes)) (hok : r.error = ERROR_SUCCESS) :
    connect_loop ctx ((c, r) :: rest) =
      ({ ctx with m_error := ERROR_SUCCESS, m_transferred := r.transferred, m_flags := r.flags,
                  sync := ctx.sync && r.sync },
       [Event.socketCreated c.ai_family c.ai_socktype c.ai_protocol,
        Event.socketBound c.ai_family,
        Event.connectIssued c.ai_addr c.ai_addrlen] ++
         (if ctx.sync && r.sync then [] else [Event.parentSignaled])) := by
  cases rest with
  | nil =>
      simp only [connect_loop, sync_update]
      rw [if_neg (by simp [hok])]
  | cons q qs =>
      simp only [connect_loop, sync_update]
      rw [if_neg (by simp [hok])]


lemma zip_all_snd {α β : Type} (f : β → Bool) :
    ∀ (as : List α) (bs : List β), as.length = bs.length →
      ((as.zip bs).all fun p => f p.2) = bs.all f := by
  intro as
  induction as with
  | nil =>
      intro bs h
      cases bs with
      | nil => simp
      | cons b bs => simp at h
  | cons a as ih =>
      intro bs h
      cases bs with
      | nil => simp at h
      | cons b bs => simp [List.all_cons, ih bs (by simpa using h)]

lemma zip_flatMap_fst {α β γ : Type} (g : α → List γ) :
    ∀ (as : List α) (bs : List β), as.length = bs.length →
      ((as.zip bs).flatMap fun p => g p.1) = as.flatMap g := by
  intro as
  induction as with
  | nil =>
      intro bs h
      cases bs with
      | nil => simp
      | cons b bs => simp at h
  | cons a as ih =>
      intro bs h
      cases bs with
      | nil => simp at h
      | cons b bs => simp [ih bs (by simpa using h)]

/-- Claim C8: when name resolution itself fails, the compound Resolve-and-Connect
operation records the resolution failure code with zero transferred bytes and
zero flags as its final outcome, stops immediately, and no socket is ever
created or bound during the whole operation. -/
theorem claim_c8 (ctx : RCCtx) (res : ResolveRes) (conns : List ConnRes)
    (hres : res.error ≠ ERROR_SUCCESS) :
    connect_and_send_run ctx res conns =
      (res.sync,
       { m_error := res.error, m_transferred := 0, m_flags := 0, sync := res.sync },
       if res.sync then [] else [Event.parentSignaled])
    ∧ (∀ f s p, Event.socketCreated f s p ∉ (connect_and_send_run ctx res conns).2.2)
    ∧ (∀ f, Event.socketBound f ∉ (connect_and_send_run ctx res conns).2.2) := by
  have h : connect_and_send_run ctx res conns =
      (res.sync,
       { m_error := res.error, m_transferred := 0, m_flags := 0, sync := res.sync },
       if res.sync then [] else [Event.parentSignaled]) := by
    simp only [connect_and_send_run, resolve_and_connect_run, sync_update]
    rw [if_pos hres]
    cases res.sync <;> simp
  refine ⟨h, ?_, ?_⟩
  · intro f s p
    rw [h]
    cases hs : res.sync <;> simp
  · intro f
    rw [h]
    cases hs : res.sync <;> simp

/-- Claim C8 witness. -/
theorem claim_c8_witness :
    connect_and_send_run { m_error := 7, m_transferred := 8, m_flags := 9, sync := false }
      { sync := false, error := 11001, result := [] } [] =
      (false, { m_error := 11001, m_transferred := 0, m_flags := 0, sync := false },
       [Event.parentSignaled]) :=
  (claim_c8 { m_error := 7, m_transferred := 8, m_flags := 9, sync := false }
    { sync := false, error := 11001, result := [] } [] (by decide)).1

/-- Claim C10: when resolution completes without error but yields an empty
candidate list, `step` returns leaving the compound outcome fields untouched
and never invoking `completion_func`: no completion is signalled to the
parent, and the synchronous caller of `connect_and_send` is told `true`
(claiming completion) with an unpopulated outcome. -/
theorem claim_c10 (ctx : RCCtx) (res : ResolveRes) (conns : List ConnRes)
    (herr : res.error = ERROR_SUCCESS) (hempty : res.result = []) :
    connect_and_send_run ctx res conns =
      (res.sync,
       { m_error := ctx.m_error, m_transferred := ctx.m_transferred, m_flags := ctx.m_flags,
         sync := res.sync },
       [])
    ∧ Event.parentSignaled ∉ (connect_and_send_run ctx res conns).2.2
    ∧ (res.sync = true → (connect_and_send_run ctx res conns).1 = true) := by
  have h : connect_and_send_run ctx res conns =
      (res.sync,
       { m_error := ctx.m_error, m_transferred := ctx.m_transferred, m_flags := ctx.m_flags,
         sync := res.sync },
       []) := by
    simp only [connect_and_send_run, resolve_and_connect_run, sync_update]
    rw [if_neg (by simp [herr])]
    simp [hempty, connect_loop]
  refine ⟨h, ?_, ?_⟩
  · rw [h]
    simp
  · intro hs
    rw [h, hs]

/-- Claim C10 witness. -/
theorem claim_c10_witness :
    connect_and_send_run { m_error := 7, m_transferred := 8, m_flags := 9, sync := false }
      { sync := true, error := 0, result := [] } [] =
      (true, { m_error := 7, m_transferred := 8, m_flags := 9, sync := true }, []) :=
  (claim_c10 { m_error := 7, m_transferred := 8, m_flags := 9, sync := false }
    { sync := true, error := 0, result := [] } [] (by decide) (by decide)).1


/-- Claim C2: Resolve-and-Connect with candidates that all fail attempts each
candidate exactly once in list order, closes each candidate's socket after
its connect fails, never retries a candidate, and records the last
candidate's failure code, transferred-byte count and flags as the final
outcome. -/
theorem claim_c2 (ctx : RCCtx) (res : ResolveRes)
    (cfront : List Cand) (clast : Cand) (front : List ConnRes) (last : ConnRes)
    (hres : res.error = ERROR_SUCCESS)
    (hcands : res.result = cfront ++ [clast])
    (hlen : front.length = cfront.length)
    (hfail : ∀ r ∈ front ++ [last], r.error ≠ ERROR_SUCCESS) :
    connect_and_send_run ctx res (front ++ [last]) =
      ((res.sync && (front ++ [last]).all fun r => r.sync),
       { m_error := last.error, m_transferred := last.transferred, m_flags := last.flags,
         sync := res.sync && (front ++ [last]).all fun r => r.sync },
       res.result.flatMap failEvents ++
         (if res.sync && (front ++ [last]).all (fun r => r.sync) then []
          else [Event.parentSignaled])) := by
  simp only [connect_and_send_run, resolve_and_connect_run, sync_update]
  rw [if_neg (by simp [hres])]
  rw [hcands, List.zip_append (by rw [hlen])]
  simp only [List.zip_cons_cons, List.zip_nil_left]
  have hfail2 : ∀ p ∈ cfront.zip front ++ [(clast, last)], p.2.error ≠ ERROR_SUCCESS := by
    intro p hp
    rcases List.mem_append.1 hp with h | h
    · exact hfail p.2 (List.mem_append_left _ (List.of_mem_zip h).2)
    · have : p = (clast, last) := by simpa using h
      subst this
      exact hfail last (List.mem_append_right _ (List.mem_singleton_self _))
  rw [connect_loop_all_fail _ _ (clast, last) hfail2 (by simp)]
  have hall : ((cfront.zip front ++ [(clast, last)]).all fun p => p.2.sync) =
      (front ++ [last]).all fun r => r.sync := by
    rw [List.all_append, List.all_append, zip_all_snd _ _ _ hlen.symm]
    simp
  have hflat : ((cfront.zip front ++ [(clast, last)]).flatMap fun p => failEvents p.1) =
      (cfront ++ [clast]).flatMap failEvents := by
    rw [List.flatMap_append, List.flatMap_append, zip_flatMap_fst _ _ _ hlen.symm]
    simp
  simp [hall, hflat, hcands]

/-- Claim C2 witness. -/
theorem claim_c2_witness :
    connect_and_send_run { m_error := 0, m_transferred := 0, m_flags := 0, sync := false }
      { sync := true, error := 0,
        result := [{ ai_family := 2, ai_socktype := 1, ai_protocol := 6, ai_addr := 100, ai_addrlen := 16 },
                   { ai_family := 23, ai_socktype := 1, ai_protocol := 6, ai_addr := 200, ai_addrlen := 28 }] }
      [{ sync := true, error := 10061, transferred := 0, flags := 0 },
       { sync := false, error := 10060, transferred := 3, flags := 1 }] =
      (false, { m_error := 10060, m_transferred := 3, m_flags := 1, sync := false },
       [Event.socketCreated 2 1 6, Event.socketBound 2, Event.connectIssued 100 16,
        Event.socketClosed,
        Event.socketCreated 23 1 6, Event.socketBound 23, Event.connectIssued 200 28,
        Event.socketClosed, Event.parentSignaled]) := by
  have h := claim_c2 { m_error := 0, m_transferred := 0, m_flags := 0, sync := false }
    { sync := true, error := 0,
      result := [{ ai_family := 2, ai_socktype := 1, ai_protocol := 6, ai_addr := 100, ai_addrlen := 16 },
                 { ai_family := 23, ai_socktype := 1, ai_protocol := 6, ai_addr := 200, ai_addrlen := 28 }] }
    [{ ai_family := 2, ai_socktype := 1, ai_protocol := 6, ai_addr := 100, ai_addrlen := 16 }]
    { ai_family := 23, ai_socktype := 1, ai_protocol := 6, ai_addr := 200, ai_addrlen := 28 }
    [{ sync := true, error := 10061, transferred := 0, flags := 0 }]
    { sync := false, error := 10060, transferred := 3, flags := 1 }
    (by decide) (by decide) (by decide) (by decide)
  simpa using h

/-- Claim C3: Resolve-and-Connect where every candidate but the last fails and
the last succeeds attempts candidates in list order, closes each failed
candidate's socket before trying the next, stops at the successful candidate,
and records success (`ERROR_SUCCESS`) plus that candidate's connect-context
transferred bytes and flags as the final outcome. -/
theorem claim_c3 (ctx : RCCtx) (res : ResolveRes)
    (cfront : List Cand) (clast : Cand) (front : List ConnRes) (last : ConnRes)
    (hres : res.error = ERROR_SUCCESS)
    (hcands : res.result = cfront ++ [clast])
    (hlen : front.length = cfront.length)
    (hfail : ∀ r ∈ front, r.error ≠ ERROR_SUCCESS)
    (hok : last.error = ERROR_SUCCESS) :
    connect_and_send_run ctx res (front ++ [last]) =
      ((res.sync && (front ++ [last]).all fun r => r.sync),
       { m_error := ERROR_SUCCESS, m_transferred := last.transferred, m_flags := last.flags,
         sync := res.sync && (front ++ [last]).all fun r => r.sync },
       cfront.flatMap failEvents ++
         [Event.socketCreated clast.ai_family clast.ai_socktype clast.ai_protocol,
          Event.socketBound clast.ai_family,
          Event.connectIssued clast.ai_addr clast.ai_addrlen] ++
         (if res.sync && (front ++ [last]).all (fun r => r.sync) then []
          else [Event.parentSignaled])) := by
  simp only [connect_and_send_run, resolve_and_connect_run, sync_update]
  rw [if_neg (by simp [hres])]
  rw [hcands, List.zip_append (by rw [hlen])]
  simp only [List.zip_cons_cons, List.zip_nil_left]
  have hfail2 : ∀ p ∈ cfront.zip front, p.2.error ≠ ERROR_SUCCESS := by
    intro p hp
    exact hfail p.2 (List.of_mem_zip hp).2
  rw [connect_loop_fail_front _ _ _ hfail2 (by simp)]
  rw [connect_loop_success_head _ _ _ _ hok]
  have hflat : ((cfront.zip front).flatMap fun p => failEvents p.1) = cfront.flatMap failEvents :=
    zip_flatMap_fst _ _ _ hlen.symm
  have hall : ((cfront.zip front).all fun p => p.2.sync) = front.all fun r => r.sync :=
    zip_all_snd _ _ _ hlen.symm
  simp [hflat, hall, List.all_append, List.append_assoc, Bool.and_assoc]

/-- Claim C3 witness. -/
theorem claim_c3_witness :
    connect_and_send_run { m_error := 0, m_transferred := 0, m_flags := 0, sync := false }
      { sync := true, error := 0,
        result := [{ ai_family := 2, ai_socktype := 1, ai_protocol := 6, ai_addr := 100, ai_addrlen := 16 },
                   { ai_family := 23, ai_socktype := 1, ai_protocol := 6, ai_addr := 200, ai_addrlen := 28 }] }
      [{ sync := true, error := 10061, transferred := 0, flags := 0 },
       { sync := true, error := 0, transferred := 5, flags := 2 }] =
      (true, { m_error := 0, m_transferred := 5, m_flags := 2, sync := true },
       [Event.socketCreated 2 1 6, Event.socketBound 2, Event.connectIssued 100 16,
        Event.socketClosed,
        Event.socketCreated 23 1 6, Event.socketBound 23, Event.connectIssued 200 28]) := by
  have h := claim_c3 { m_error := 0, m_transferred := 0, m_flags := 0, sync := false }
    { sync := true, error := 0,
      result := [{ ai_family := 2, ai_socktype := 1, ai_protocol := 6, ai_addr := 100, ai_addrlen := 16 },
                 { ai_family := 23, ai_socktype := 1, ai_protocol := 6, ai_addr := 200, ai_addrlen := 28 }] }
    [{ ai_family := 2, ai_socktype := 1, ai_protocol := 6, ai_addr := 100, ai_addrlen := 16 }]
    { ai_family := 23, ai_socktype := 1, ai_protocol := 6, ai_addr := 200, ai_addrlen := 28 }
    [{ sync := true, error := 10061, transferred := 0, flags := 0 }]
    { sync := true, error := 0, transferred := 5, flags := 2 }
    (by decide) (by decide) (by decide) (by decide) (by decide)
  simpa using h


lemma run_many_loop_spec (entries : List OVERLAPPED_ENTRY) :
    ∀ (k : Bool) (d : List Nat),
      run_many_loop entries k d =
        (k && entries.all fun e => decide (e.lpCompletionKey = KEY_RUN),
         d ++ (entries.filter fun e => decide (e.lpCompletionKey = KEY_RUN)).map
           fun e => e.lpOverlapped) := by
  induction entries with
  | nil => intro k d; simp [run_many_loop]
  | cons e rest ih =>
      intro k d
      by_cases h : e.lpCompletionKey = KEY_RUN
      · simp [run_many_loop, h, ih, List.filter_cons]
      · simp [run_many_loop, h, ih, List.filter_cons]

/-- Claim C5: `run` blocks for one completion; a packet with the reserved
shutdown key returns false without dispatching any hook (the sentinel
carries no operation context); any other packet has its context's hook
dispatched exactly once and returns true; a failed wait with no completion
attached is raised to the caller as an error, not handled internally. -/
theorem claim_c5 :
    (∀ ev : WaitEvent, service.run ev = Except.error () ↔ ev.ok = false ∧ ev.overlapped = none)
    ∧ (∀ (ev : WaitEvent) (o : Nat), ev.overlapped = some o →
        ev.completion_key ≠ KEY_SHUTDOWN → service.run ev = Except.ok (true, [o]))
    ∧ (∀ ev : WaitEvent, ev.completion_key = KEY_SHUTDOWN → ev.ok = true →
        service.run ev = Except.ok (false, []))
    ∧ service.run shutdown_event = Except.ok (false, []) := by
  refine ⟨?_, ?_, ?_, rfl⟩
  · intro ev
    unfold service.run
    constructor
    · intro h
      by_contra hc
      rw [if_neg hc] at h
      revert h
      split <;> simp
    · intro h
      rw [if_pos h]
  · intro ev o ho hk
    unfold service.run
    rw [if_neg (by simp [ho]), if_neg hk, ho]
    rfl
  · intro ev hk hok
    unfold service.run
    rw [if_neg (by simp [hok]), if_pos hk]

/-- Claim C5 witness. -/
theorem claim_c5_witness :
    service.run { ok := true, completion_key := 0, overlapped := some 7 } = Except.ok (true, [7])
    ∧ service.run { ok := false, completion_key := 0, overlapped := none } = Except.error ()
    ∧ service.run shutdown_event = Except.ok (false, []) :=
  ⟨claim_c5.2.1 { ok := true, completion_key := 0, overlapped := some 7 } 7 rfl (by decide),
   (claim_c5.1 { ok := false, completion_key := 0, overlapped := none }).mpr ⟨rfl, rfl⟩,
   claim_c5.2.2.2⟩

/-- Claim C6: `run_many` drains a batch of at most 16 completions in one
wait, dispatches exactly one hook per dequeued `KEY_RUN` entry — in batch
order, including entries positioned after a shutdown entry, which are not
skipped — dispatches no hook for a shutdown entry, and returns false iff at
least one shutdown entry was seen in the batch. -/
theorem claim_c6 (entries : List OVERLAPPED_ENTRY) (hbatch : entries.length ≤ batch_limit) :
    service.run_many true entries =
      Except.ok
        ((entries.all fun e => decide (e.lpCompletionKey = KEY_RUN)),
         (entries.filter fun e => decide (e.lpCompletionKey = KEY_RUN)).map
           fun e => e.lpOverlapped)
    ∧ ((entries.all fun e => decide (e.lpCompletionKey = KEY_RUN)) = false ↔
        ∃ e ∈ entries, e.lpCompletionKey ≠ KEY_RUN)
    ∧ service.run_many false entries = Except.error () := by
  refine ⟨?_, ?_, ?_⟩
  · unfold service.run_many
    rw [if_neg (by simp)]
    rw [run_many_loop_spec]
    simp
  · simp [List.all_eq_true]
  · unfold service.run_many
    rw [if_pos rfl]

/-- Claim C6 witness: a batch with a real completion, then a shutdown entry,
then another real completion dispatches both real completions in order,
skips the sentinel, and reports shutdown. -/
theorem claim_c6_witness :
    service.run_many true
      [{ lpCompletionKey := 0, lpOverlapped := 11 },
       { lpCompletionKey := 1, lpOverlapped := 0 },
       { lpCompletionKey := 0, lpOverlapped := 12 }] =
      Except.ok (false, [11, 12]) := by
  have h := claim_c6
    [{ lpCompletionKey := 0, lpOverlapped := 11 },
     { lpCompletionKey := 1, lpOverlapped := 0 },
     { lpCompletionKey := 0, lpOverlapped := 12 }] (by decide)
  simpa using h.1






/-- Claim C9: the single-buffer / no-payload convenience overloads return the
same boolean and leave the context in the same state as the general
overloads: `connect` equals `connect_and_send` with a null zero-length
buffer, and single-buffer `send` / `receive` equal their multi-buffer
overloads applied to exactly one `WSABUF` wrapping the same buffer and
length. -/
theorem claim_c9 :
    (∀ (env : OsEnv) (m_sock name name_len : Nat) (ctx : socket_context),
       socket.connect env m_sock name name_len ctx =
         socket.connect_and_send env m_sock name name_len 0 0 ctx)
    ∧ (∀ (env : OsEnv) (m_sock buffer buffer_len flags : Nat) (ctx : socket_context),
       socket.send env m_sock buffer buffer_len flags ctx =
         socket.send_bufs env m_sock [{ buf := buffer, len := buffer_len }] flags ctx)
    ∧ (∀ (env : OsEnv) (m_sock buffer buffer_len flags : Nat) (ctx : socket_context),
       socket.receive env m_sock buffer buffer_len flags ctx =
         socket.receive_bufs env m_sock [{ buf := buffer, len := buffer_len }] flags ctx) :=
  ⟨fun _ _ _ _ _ => rfl, fun _ _ _ _ _ _ => rfl, fun _ _ _ _ _ _ => rfl⟩

/-- Claim C7: for every socket primitive an immediate failure — including a
failure to even start, such as an unresolvable extension function pointer —
populates the context's error field and returns true; "failed to start" is
not distinguished from "completed with error" (both return true), no
exception escapes the primitive, and the error surfaces only when the
caller inspects the context via `check_error`. -/
theorem claim_c7 :
    (∀ (env : OsEnv) (a b c d e f : Nat) (ctx : socket_context) (err : Nat),
       env.acceptExPtr = ExtRes.unresolved err →
       socket.accept_and_receive env a b c d e f ctx =
         (true, { ctx with m_error := err, m_transferred := 0, m_flags := 0 }))
    ∧ (∀ (env : OsEnv) (m n nl b bl : Nat) (ctx : socket_context) (err : Nat),
       env.connectExPtr = ExtRes.unresolved err →
       socket.connect_and_send env m n nl b bl ctx =
         (true, { ctx with m_error := err, m_transferred := 0, m_flags := 0 }))
    ∧ (∀ (env : OsEnv) (m : Nat) (reuse : Bool) (ctx : socket_context) (err : Nat),
       env.disconnectExPtr = ExtRes.unresolved err →
       socket.disconnect env m reuse ctx =
         (true, { ctx with m_error := err, m_transferred := 0, m_flags := 0 }))
    ∧ (∀ (env : OsEnv) (a b c d e f : Nat) (ctx : socket_context) (err : Nat),
       env.acceptExPtr = ExtRes.resolved →
       env.acceptEx a b c d e f = CallRes.failedWith err → err ≠ ERROR_IO_PENDING →
       socket.accept_and_receive env a b c d e f ctx =
         (true, { ctx.init a with m_error := err, m_flags := 0 }))
    ∧ (∀ (env : OsEnv) (m n nl b bl : Nat) (ctx : socket_context) (err : Nat),
       env.connectExPtr = ExtRes.resolved →
       env.connectEx m n nl b bl = CallRes.failedWith err → err ≠ ERROR_IO_PENDING →
       socket.connect_and_send env m n nl b bl ctx =
         (true, { ctx.init m with m_error := err, m_flags := 0 }))
    ∧ (∀ (env : OsEnv) (m : Nat) (buffers : List WSABUF) (flags : Nat)
         (ctx : socket_context) (err : Nat),
       env.wsaSend m buffers flags = CallRes.failedWith err → err ≠ ERROR_IO_PENDING →
       socket.send_bufs env m buffers flags ctx =
         (true, { ctx.init m with m_error := err, m_flags := 0 }))
    ∧ (∀ (env : OsEnv) (m : Nat) (buffers : List WSABUF) (flags : Nat)
         (ctx : socket_context) (err : Nat),
       env.wsaRecv m buffers flags = CallRes.failedWith err → err ≠ ERROR_IO_PENDING →
       socket.receive_bufs env m buffers flags ctx =
         (true, { ctx.init m with m_error := err, m_flags := 0 }))
    ∧ (∀ (env : OsEnv) (m : Nat) (reuse : Bool) (ctx : socket_context) (err : Nat),
       env.disconnectExPtr = ExtRes.resolved →
       env.disconnectEx m (if reuse then TF_REUSE_SOCKET else 0) = CallRes.failedWith err →
       err ≠ ERROR_IO_PENDING →
       socket.disconnect env m reuse ctx =
         (true, { ctx.init m with m_error := err, m_flags := 0 }))
    ∧ (∀ ctx : socket_context, ctx.m_error ≠ ERROR_SUCCESS →
       ctx.check_error = Except.error ctx.m_error) := by
  refine ⟨?_, ?_, ?_, ?_, ?_, ?_, ?_, ?_, ?_⟩
  · intro env a b c d e f ctx err h
    simp [socket.accept_and_receive, h]
  · intro env m n nl b bl ctx err h
    simp [socket.connect_and_send, h]
  · intro env m reuse ctx err h
    simp [socket.disconnect, h]
  · intro env a b c d e f ctx err hp hc herr
    simp [socket.accept_and_receive, hp, hc, herr]
  · intro env m n nl b bl ctx err hp hc herr
    simp [socket.connect_and_send, hp, hc, herr]
  · intro env m buffers flags ctx err hc herr
    simp [socket.send_bufs, hc, herr]
  · intro env m buffers flags ctx err hc herr
    simp [socket.receive_bufs, hc, herr]
  · intro env m reuse ctx err hp hc herr
    simp [socket.disconnect, hp, hc, herr]
  · intro ctx h
    unfold socket_context.check_error
    rw [if_pos h]

/-- Claim C7 witness. -/
theorem claim_c7_witness :
    socket.connect_and_send env_unresolved 3 100 16 0 0
        { m_sock := 0, m_error := 0, m_transferred := 0, m_flags := 0 } =
      (true, { m_sock := 0, m_error := 10022, m_transferred := 0, m_flags := 0 })
    ∧ socket.send_bufs env_failing 3 [] 0
        { m_sock := 0, m_error := 0, m_transferred := 0, m_flags := 0 } =
      (true, { m_sock := 3, m_error := 10054, m_transferred := 0, m_flags := 0 })
    ∧ socket_context.check_error
        { m_sock := 3, m_error := 10054, m_transferred := 0, m_flags := 0 } =
      Except.error 10054 :=
  ⟨claim_c7.2.1 env_unresolved 3 100 16 0 0
      { m_sock := 0, m_error := 0, m_transferred := 0, m_flags := 0 } 10022 rfl,
   claim_c7.2.2.2.2.2.1 env_failing 3 [] 0
      { m_sock := 0, m_error := 0, m_transferred := 0, m_flags := 0 } 10054 rfl (by decide),
   claim_c7.2.2.2.2.2.2.2.2
      { m_sock := 3, m_error := 10054, m_transferred := 0, m_flags := 0 } (by decide)⟩


/-- Claim C1 counterexample: the claim requires that a true-returning call
leave all three outcome fields (error, bytes transferred, flags) populated.
On `disconnect` completing synchronously (`DisconnectEx` succeeding
immediately) the call returns true but never writes `m_transferred`: it
retains whatever value the context held before the call (42 versus 7 below),
so the transferred count is not populated by the call. -/
theorem claim_c1_counterexample :
    (socket.disconnect env_disc_ok 3 false
        { m_sock := 3, m_error := 1, m_transferred := 42, m_flags := 9 }).1 = true
    ∧ (socket.disconnect env_disc_ok 3 false
        { m_sock := 3, m_error := 1, m_transferred := 42, m_flags := 9 }).2.m_transferred = 42
    ∧ (socket.disconnect env_disc_ok 3 false
        { m_sock := 3, m_error := 1, m_transferred := 7, m_flags := 9 }).1 = true
    ∧ (socket.disconnect env_disc_ok 3 false
        { m_sock := 3, m_error := 1, m_transferred := 7, m_flags := 9 }).2.m_transferred = 7 :=
  ⟨rfl, rfl, rfl, rfl⟩

/-- Claim C1 as amended: for every asynchronous socket primitive exactly one
of the following holds on each call — the call returns true with the error
and flags outcome fields populated by the call (their values independent of
the incoming context; the transferred count is additionally populated on
synchronous success of the transfer-reporting primitives, but `disconnect`
and the immediate-failure paths leave it at its prior value), or the call
returns false (exactly the OS-pending classification) with every outcome
field untouched, the outcome then being written in one completion-hook
invocation (`socket_context::completion_func` populates all three fields)
when the multiplexer dispatches the context — never both, never neither. -/
theorem claim_c1_amended :
    (∀ (env : OsEnv) (a b c d e f : Nat),
       (∀ ctx, (socket.accept_and_receive env a b c d e f ctx).1 = false ↔
          env.acceptExPtr = ExtRes.resolved ∧
            env.acceptEx a b c d e f = CallRes.failedWith ERROR_IO_PENDING)
       ∧ (∀ ctx, (socket.accept_and_receive env a b c d e f ctx).1 = false →
           (socket.accept_and_receive env a b c d e f ctx).2 = ctx.init a)
       ∧ (∀ ctx1 ctx2, (socket.accept_and_receive env a b c d e f ctx1).1 = true →
           (socket.accept_and_receive env a b c d e f ctx2).1 = true
           ∧ (socket.accept_and_receive env a b c d e f ctx2).2.m_error =
               (socket.accept_and_receive env a b c d e f ctx1).2.m_error
           ∧ (socket.accept_and_receive env a b c d e f ctx2).2.m_flags =
               (socket.accept_and_receive env a b c d e f ctx1).2.m_flags))
    ∧ (∀ (env : OsEnv) (m n nl b bl : Nat),
       (∀ ctx, (socket.connect_and_send env m n nl b bl ctx).1 = false ↔
          env.connectExPtr = ExtRes.resolved ∧
            env.connectEx m n nl b bl = CallRes.failedWith ERROR_IO_PENDING)
       ∧ (∀ ctx, (socket.connect_and_send env m n nl b bl ctx).1 = false →
           (socket.connect_and_send env m n nl b bl ctx).2 = ctx.init m)
       ∧ (∀ ctx1 ctx2, (socket.connect_and_send env m n nl b bl ctx1).1 = true →
           (socket.connect_and_send env m n nl b bl ctx2).1 = true
           ∧ (socket.connect_and_send env m n nl b bl ctx2).2.m_error =
               (socket.connect_and_send env m n nl b bl ctx1).2.m_error
           ∧ (socket.connect_and_send env m n nl b bl ctx2).2.m_flags =
               (socket.connect_and_send env m n nl b bl ctx1).2.m_flags))
    ∧ (∀ (env : OsEnv) (m : Nat) (buffers : List WSABUF) (flags : Nat),
       (∀ ctx, (socket.send_bufs env m buffers flags ctx).1 = false ↔
          env.wsaSend m buffers flags = CallRes.failedWith ERROR_IO_PENDING)
       ∧ (∀ ctx, (socket.send_bufs env m buffers flags ctx).1 = false →
           (socket.send_bufs env m buffers flags ctx).2 = ctx.init m)
       ∧ (∀ ctx1 ctx2, (socket.send_bufs env m buffers flags ctx1).1 = true →
           (socket.send_bufs env m buffers flags ctx2).1 = true
           ∧ (socket.send_bufs env m buffers flags ctx2).2.m_error =
               (socket.send_bufs env m buffers flags ctx1).2.m_error
           ∧ (socket.send_bufs env m buffers flags ctx2).2.m_flags =
               (socket.send_bufs env m buffers flags ctx1).2.m_flags))
    ∧ (∀ (env : OsEnv) (m : Nat) (buffers : List WSABUF) (flags : Nat),
       (∀ ctx, (socket.receive_bufs env m buffers flags ctx).1 = false ↔
          env.wsaRecv m buffers flags = CallRes.failedWith ERROR_IO_PENDING)
       ∧ (∀ ctx, (socket.receive_bufs env m buffers flags ctx).1 = false →
           (socket.receive_bufs env m buffers flags ctx).2 = ctx.init m)
       ∧ (∀ ctx1 ctx2, (socket.receive_bufs env m buffers flags ctx1).1 = true →
           (socket.receive_bufs env m buffers flags ctx2).1 = true
           ∧ (socket.receive_bufs env m buffers flags ctx2).2.m_error =
               (socket.receive_bufs env m buffers flags ctx1).2.m_error
           ∧ (socket.receive_bufs env m buffers flags ctx2).2.m_flags =
               (socket.receive_bufs env m buffers flags ctx1).2.m_flags))
    ∧ (∀ (env : OsEnv) (m : Nat) (reuse : Bool),
       (∀ ctx, (socket.disconnect env m reuse ctx).1 = false ↔
          env.disconnectExPtr = ExtRes.resolved ∧
            env.disconnectEx m (if reuse then TF_REUSE_SOCKET else 0) =
              CallRes.failedWith ERROR_IO_PENDING)
       ∧ (∀ ctx, (socket.disconnect env m reuse ctx).1 = false →
           (socket.disconnect env m reuse ctx).2 = ctx.init m)
       ∧ (∀ ctx1 ctx2, (socket.disconnect env m reuse ctx1).1 = true →
           (socket.disconnect env m reuse ctx2).1 = true
           ∧ (socket.disconnect env m reuse ctx2).2.m_error =
               (socket.disconnect env m reuse ctx1).2.m_error
           ∧ (socket.disconnect env m reuse ctx2).2.m_flags =
               (socket.disconnect env m reuse ctx1).2.m_flags))
    ∧ (∀ (env : OsEnv) (svc host serv : Nat),
       (∀ ctx, (io_resolve env svc host serv ctx).1 = false ↔
          env.getAddrInfoEx host serv = ERROR_IO_PENDING)
       ∧ (∀ ctx, (io_resolve env svc host serv ctx).1 = false →
           (io_resolve env svc host serv ctx).2 = { ctx with m_iocp := svc })
       ∧ (∀ ctx1 ctx2, (io_resolve env svc host serv ctx1).1 = true →
           (io_resolve env svc host serv ctx2).1 = true
           ∧ (io_resolve env svc host serv ctx2).2.m_error =
               (io_resolve env svc host serv ctx1).2.m_error))
    ∧ (∀ (r : OverlappedRes) (ctx1 ctx2 : socket_context),
       (socket_context.completion_func r ctx1).m_error =
           (socket_context.completion_func r ctx2).m_error
       ∧ (socket_context.completion_func r ctx1).m_transferred =
           (socket_context.completion_func r ctx2).m_transferred
       ∧ (socket_context.completion_func r ctx1).m_flags =
           (socket_context.completion_func r ctx2).m_flags) := by
  refine ⟨?_, ?_, ?_, ?_, ?_, ?_, ?_⟩
  · intro env a b c d e f
    cases hp : env.acceptExPtr with
    | unresolved er =>
        refine ⟨?_, ?_, ?_⟩ <;> intro ctx <;>
          simp [socket.accept_and_receive, hp]
    | resolved =>
        cases hc : env.acceptEx a b c d e f with
        | success t fl =>
            refine ⟨?_, ?_, ?_⟩ <;> intro ctx <;>
              simp [socket.accept_and_receive, hp, hc]
        | failedWith er =>
            by_cases he : er = ERROR_IO_PENDING <;>
              refine ⟨?_, ?_, ?_⟩ <;> intro ctx <;>
                simp [socket.accept_and_receive, hp, hc, he]
  · intro env m n nl b bl
    cases hp : env.connectExPtr with
    | unresolved er =>
        refine ⟨?_, ?_, ?_⟩ <;> intro ctx <;>
          simp [socket.connect_and_send, hp]
    | resolved =>
        cases hc : env.connectEx m n nl b bl with
        | success t fl =>
            refine ⟨?_, ?_, ?_⟩ <;> intro ctx <;>
              simp [socket.connect_and_send, hp, hc]
        | failedWith er =>
            by_cases he : er = ERROR_IO_PENDING <;>
              refine ⟨?_, ?_, ?_⟩ <;> intro ctx <;>
                simp [socket.connect_and_send, hp, hc, he]
  · intro env m buffers flags
    cases hc : env.wsaSend m buffers flags with
    | success t fl =>
        refine ⟨?_, ?_, ?_⟩ <;> intro ctx <;> simp [socket.send_bufs, hc]
    | failedWith er =>
        by_cases he : er = ERROR_IO_PENDING <;>
          refine ⟨?_, ?_, ?_⟩ <;> intro ctx <;> simp [socket.send_bufs, hc, he]
  · intro env m buffers flags
    cases hc : env.wsaRecv m buffers flags with
    | success t fl =>
        refine ⟨?_, ?_, ?_⟩ <;> intro ctx <;> simp [socket.receive_bufs, hc]
    | failedWith er =>
        by_cases he : er = ERROR_IO_PENDING <;>
          refine ⟨?_, ?_, ?_⟩ <;> intro ctx <;> simp [socket.receive_bufs, hc, he]
  · intro env m reuse
    cases hp : env.disconnectExPtr with
    | unresolved er =>
        refine ⟨?_, ?_, ?_⟩ <;> intro ctx <;> simp [socket.disconnect, hp]
    | resolved =>
        cases hc : env.disconnectEx m (if reuse then TF_REUSE_SOCKET else 0) with
        | success t fl =>
            refine ⟨?_, ?_, ?_⟩ <;> intro ctx <;> simp [socket.disconnect, hp, hc]
        | failedWith er =>
            by_cases he : er = ERROR_IO_PENDING <;>
              refine ⟨?_, ?_, ?_⟩ <;> intro ctx <;> simp [socket.disconnect, hp, hc, he]
  · intro env svc host serv
    by_cases h0 : env.getAddrInfoEx host serv = 0
    · refine ⟨?_, ?_, ?_⟩
      · intro ctx
        simp [io_resolve, h0, ERROR_IO_PENDING]
      · intro ctx h
        simp [io_resolve, h0] at h
      · intro ctx1 ctx2 h
        simp [io_resolve, h0]
    · by_cases hpend : env.getAddrInfoEx host serv = ERROR_IO_PENDING
      · refine ⟨?_, ?_, ?_⟩
        · intro ctx
          simp [io_resolve, h0, hpend, ERROR_IO_PENDING]
        · intro ctx h
          simp [io_resolve, h0, hpend, ERROR_IO_PENDING]
        · intro ctx1 ctx2 h
          simp [io_resolve, h0, hpend, ERROR_IO_PENDING] at h
      · refine ⟨?_, ?_, ?_⟩
        · intro ctx
          simp [io_resolve, h0, hpend]
        · intro ctx h
          simp [io_resolve, h0, hpend] at h
        · intro ctx1 ctx2 h
          simp [io_resolve, h0, hpend]
  · intro r ctx1 ctx2
    refine ⟨?_, ?_, ?_⟩ <;> simp [socket_context.completion_func]

/-- Claim C1 witness. -/
theorem claim_c1_witness :
    (socket.send_bufs env_pending 3 [] 0
        { m_sock := 0, m_error := 5, m_transferred := 6, m_flags := 7 }).1 = false
    ∧ (socket.send_bufs env_pending 3 [] 0
        { m_sock := 0, m_error := 5, m_transferred := 6, m_flags := 7 }).2 =
      { m_sock := 3, m_error := 5, m_transferred := 6, m_flags := 7 } :=
  ⟨((claim_c1_amended.2.2.1 env_pending 3 [] 0).1
      { m_sock := 0, m_error := 5, m_transferred := 6, m_flags := 7 }).mpr rfl,
   (claim_c1_amended.2.2.1 env_pending 3 [] 0).2.1
      { m_sock := 0, m_error := 5, m_transferred := 6, m_flags := 7 }
      (((claim_c1_amended.2.2.1 env_pending 3 [] 0).1
          { m_sock := 0, m_error := 5, m_transferred := 6, m_flags := 7 }).mpr rfl)⟩

/-- Claim C4 counterexample: the claim says the bound context's hook, after
the base bookkeeping, "unconditionally invokes the owning async_op's step
function exactly once".  When the connect succeeded but the post-connect
fixup (`SO_UPDATE_CONNECT_CONTEXT`) fails, `connect_context::completion_func`
throws `winsock_error` out of the hook, so the owning operation's step
function is invoked zero times. -/
theorem claim_c4_counterexample :
    (async_context.mk Nat.succ).connect_completion_func
        { ok := true, lastError := 0, transferred := 5, flags := 2 } (some 10054)
        { m_sock := 3, m_error := 1, m_transferred := 0, m_flags := 0 } 7 =
      Except.error 10054
    ∧ hookStepCalls ((async_context.mk Nat.succ).connect_completion_func
        { ok := true, lastError := 0, transferred := 5, flags := 2 } (some 10054)
        { m_sock := 3, m_error := 1, m_transferred := 0, m_flags := 0 } 7) = 0 :=
  ⟨rfl, rfl⟩

/-- Claim C4 as amended: a bound context's completion hook first runs the
base context's own completion bookkeeping (for a connect context, the
post-connect fixup); provided that bookkeeping completes without raising,
it then invokes the owning async_op's step function exactly once, on the
operation state current at dispatch — the resume point recorded immediately
before the suspending call, never a stale or future one — and the operation
it invokes is exactly the one fixed at construction; if the bookkeeping
raises, the exception propagates and the step function is not invoked. -/
theorem claim_c4_amended {σ : Type} (f : σ → σ) (r : OverlappedRes) (fixup_err : Option Nat)
    (ctx ctx1 : socket_context) (op : σ)
    (hbase : connect_context.completion_func r fixup_err ctx = Except.ok ctx1) :
    (async_context.mk f).connect_completion_func r fixup_err ctx op =
      Except.ok (ctx1, f op, [HookEvent.base_bookkeeping, HookEvent.step_call op])
    ∧ hookStepCalls ((async_context.mk f).connect_completion_func r fixup_err ctx op) = 1 := by
  unfold async_context.connect_completion_func
  rw [hbase]
  simp [hookStepCalls, stepCalls]

/-- Claim C4 witness. -/
theorem claim_c4_witness :
    (async_context.mk Nat.succ).connect_completion_func
        { ok := true, lastError := 0, transferred := 5, flags := 2 } none
        { m_sock := 3, m_error := 1, m_transferred := 0, m_flags := 0 } 7 =
      Except.ok ({ m_sock := 3, m_error := 0, m_transferred := 5, m_flags := 2 }, 8,
        [HookEvent.base_bookkeeping, HookEvent.step_call 7]) :=
  (claim_c4_amended Nat.succ
    { ok := true, lastError := 0, transferred := 5, flags := 2 } none
    { m_sock := 3, m_error := 1, m_transferred := 0, m_flags := 0 }
    { m_sock := 3, m_error := 0, m_transferred := 5, m_flags := 2 } 7 rfl).1

end AsyncIo
